import Mathlib

/-!
Shallow embedding of `gopher_behaviours/delivery.py` (goal lifecycle state
machine, tree assembly and replacement, waiting gate) for checking its
natural-language specification.

Python objects become Lean structures; mutating methods become pure
functions from the old state to the new state.  Fallible accesses
(reading an attribute that may never have been assigned, indexing an
empty list) return `Except String`.  External collaborators (the planner)
are records of functions.  ROS publishing is fire-and-forget and carries
no state, so it is dropped from the embedding.
-/

namespace Gopher

/-- `py_trees.Status` of a behaviour.  Freshly constructed behaviours are
`INVALID`. -/
inductive Status where
  | INVALID
  | RUNNING
  | SUCCESS
  | FAILURE
deriving DecidableEq, Repr

/-- `State(IntEnum)` from delivery.py: status of a delivery behaviour. -/
inductive State where
  | IDLE
  | WAITING
  | TRAVELLING
  | INVALID
deriving DecidableEq, Repr

/-- The error codes of `gopher_std_msgs.DeliveryErrorCodes` that
delivery.py uses.  `FUBAR` is the code returned together with the message
"Received invalid locations" (the spec calls this rejection
INVALID_LOCATIONS). -/
inductive DeliveryErrorCodes where
  | SUCCESS
  | GOAL_EMPTY_NOTHING_TO_DO
  | FUBAR
  | ALREADY_ASSIGNED_A_GOAL
deriving DecidableEq, Repr

/-- A `gopher_std_msgs.Location`; delivery.py only ever reads
`unique_name` from it (in `__init__`), so the other message fields are
not part of the embedding. -/
structure Location where
  unique_name : String
deriving DecidableEq, Repr

/-- What `post_tock_update` can observe about
`delivery_sequence.current_child()`: the `isinstance` checks distinguish
a `moveit.MoveToGoal` leaf, a `Waiting` gate (whose `feedback_message` it
copies), and anything else. -/
inductive ChildKind where
  | moveToGoal
  | waitingGate (feedback_message : String)
  | other
deriving DecidableEq, Repr

/-- Observable state of the oneshot delivery sequence that
`post_tock_update` reads: its `status` and its current child.  The tick
engine itself (py_trees) is outside this module. -/
structure DeliverySeq where
  children : List String
  status : Status
  current_child : Option ChildKind
deriving DecidableEq, Repr

/-- The assembled behaviour tree root.  The cancel and recovery branches
are fixed behaviours; the variable part is the list of planner-supplied
steps that becomes the children of the oneshot delivery sequence.  `id`
stands for the python object identity `self.root.id`. -/
structure Root where
  id : Nat
  delivery_children : List String
  status : Status
deriving DecidableEq, Repr

/-- The external planner collaborator: `check_locations`,
`create_tree(current_world, locations, include_parking_behaviours, doors)`
returning the ordered list of steps (empty on failure), and the
`current_location` slot that `pre_tick_update` writes back into. -/
structure Planner where
  check_locations : List String → Bool
  create_tree : String → List String → Bool → List String → List String
  current_location : Option String

/-- `GopherDeliveries` together with the blackboard variables it shares
(`is_waiting`, `traversed_locations`, `remaining_locations`).  `doors` is
an `Option`: `__init__` never assigns the attribute (`none`), only an
accepted `set_goal` does (`some`); reading it while `none` is the python
`AttributeError`. -/
structure GopherDeliveries where
  is_waiting : Bool
  root : Option Root
  state : State
  locations : List String
  has_a_new_goal : Bool
  feedback_message : String
  old_goal_id : Option Nat
  planner : Planner
  always_assume_initialised : Bool
  delivery_sequence : Option DeliverySeq
  incoming_goal : Option (List String)
  doors : Option (List String)
  traversed_locations : List String
  remaining_locations : List String

/-- `GopherDeliveries.__init__`: a `semantic_locations` preload becomes a
pending goal of the locations' unique names; note that `doors` is left
unassigned. -/
def GopherDeliveries.init (planner : Planner)
    (semantic_locations : Option (List Location)) : GopherDeliveries :=
  { is_waiting := false
    root := none
    state := State.IDLE
    locations := []
    has_a_new_goal := false
    feedback_message := ""
    old_goal_id := none
    planner := planner
    always_assume_initialised := false
    delivery_sequence := none
    incoming_goal := semantic_locations.map (fun locs => locs.map Location.unique_name)
    doors := none
    traversed_locations := []
    remaining_locations := [] }

/-- `GopherDeliveries.set_goal(locations, always_assume_initialised, doors)`.
Python truthiness `locations is None or not locations` is the `none` /
`some []` cases.  Returns the `(error code, message)` pair and the new
object state. -/
def set_goal (d : GopherDeliveries) (locations : Option (List String))
    (always_assume_initialised : Bool) (doors : List String) :
    (DeliveryErrorCodes × String) × GopherDeliveries :=
  match locations with
  | none => ((DeliveryErrorCodes.GOAL_EMPTY_NOTHING_TO_DO, "goal empty, nothing to do."), d)
  | some [] => ((DeliveryErrorCodes.GOAL_EMPTY_NOTHING_TO_DO, "goal empty, nothing to do."), d)
  | some (l :: ls) =>
    if d.state = State.IDLE then
      if d.planner.check_locations (l :: ls) then
        ((DeliveryErrorCodes.SUCCESS, "assigned new goal"),
         { d with incoming_goal := some (l :: ls)
                  always_assume_initialised := always_assume_initialised
                  doors := some doors })
      else
        ((DeliveryErrorCodes.FUBAR, "Received invalid locations"), d)
    else if d.state = State.WAITING then
      ((DeliveryErrorCodes.SUCCESS, "pre-empting current goal"),
       { d with incoming_goal := some (l :: ls)
                always_assume_initialised := always_assume_initialised
                doors := some doors })
    else
      ((DeliveryErrorCodes.ALREADY_ASSIGNED_A_GOAL, "sorry, busy (already assigned a goal)"), d)

/-- The flag computed at line 233 of delivery.py:
`False if self.always_assume_initialised or self.root else True`. -/
def include_parking_behaviours (always_assume_initialised : Bool)
    (root : Option Root) : Bool :=
  if always_assume_initialised || root.isSome then false else true

/-- The `elif`/`else` tail of `pre_tick_update` (reached when there is no
truthy incoming goal): on a succeeded root, record the last traversed
location into the planner, remember the old root id, drop the root and
flag the change; otherwise clear `has_a_new_goal`. -/
def pre_tick_no_goal (d : GopherDeliveries) : GopherDeliveries :=
  match d.root with
  | some r =>
    if r.status = Status.SUCCESS then
      { d with planner := { d.planner with current_location := d.traversed_locations.getLast? }
               old_goal_id := some r.id
               root := none
               has_a_new_goal := true }
    else
      { d with has_a_new_goal := false }
  | none => { d with has_a_new_goal := false }

/-- The warning logged when the planner returns an empty decomposition. -/
def emptyPlanWarning : String :=
  "Gopher Deliveries : Received a goal, but none of the locations were valid."

/-- `GopherDeliveries.pre_tick_update(current_world)`.  `fresh_id` stands
for the object identity of a newly constructed root.  Returns the new
state together with the list of warnings logged; reading the never
assigned `doors` attribute is the `AttributeError` case. -/
def pre_tick_update (d : GopherDeliveries) (current_world : String)
    (fresh_id : Nat) : Except String (GopherDeliveries × List String) :=
  match d.incoming_goal with
  | some (l :: ls) =>
    match d.doors with
    | none => Except.error "AttributeError: GopherDeliveries instance has no attribute doors"
    | some drs =>
      match d.planner.create_tree current_world (l :: ls)
          (include_parking_behaviours d.always_assume_initialised d.root) drs with
      | [] =>
        Except.ok ({ d with incoming_goal := none }, [emptyPlanWarning])
      | c :: cs =>
        Except.ok
          ({ d with
              old_goal_id := d.root.map Root.id
              traversed_locations := if d.root.isNone then [] else d.traversed_locations
              delivery_sequence := some { children := c :: cs
                                          status := Status.INVALID
                                          current_child := none }
              root := some { id := fresh_id
                             delivery_children := c :: cs
                             status := Status.INVALID }
              remaining_locations := l :: ls
              locations := l :: ls
              has_a_new_goal := true
              incoming_goal := none }, [])
  | _ => Except.ok (pre_tick_no_goal d, [])

/-- `GopherDeliveries.is_executing()`. -/
def is_executing (d : GopherDeliveries) : Bool :=
  d.state = State.WAITING || d.state = State.TRAVELLING

/-- `GopherDeliveries.succeeded_on_last_tick()`. -/
def succeeded_on_last_tick (d : GopherDeliveries) : Bool :=
  match d.root with
  | some r => r.status = Status.SUCCESS
  | none => false

/-- `GopherDeliveries.post_tock_update()`: classify the tree state after
the tick into `state` and `feedback_message`.  Reading
`self.delivery_sequence.status` while the attribute is still `None`, or
indexing an empty `remaining_locations`, are the error cases. -/
def post_tock_update (d : GopherDeliveries) : Except String GopherDeliveries :=
  match d.root with
  | some r =>
    if r.status = Status.RUNNING then
      match d.delivery_sequence with
      | none => Except.error "AttributeError: NoneType object has no attribute status"
      | some ds =>
        if ds.status = Status.RUNNING then
          match ds.current_child with
          | some ChildKind.moveToGoal =>
            match d.remaining_locations with
            | [] => Except.error "IndexError: list index out of range"
            | next :: _ =>
              match d.traversed_locations.getLast? with
              | some last =>
                Except.ok { d with state := State.TRAVELLING
                                   feedback_message :=
                                     "moving from \x27" ++ last ++ "\x27 to \x27" ++ next ++ "\x27" }
              | none =>
                Except.ok { d with state := State.TRAVELLING
                                   feedback_message := "moving to \x27" ++ next ++ "\x27" }
          | some (ChildKind.waitingGate fb) =>
            Except.ok { d with state := State.WAITING, feedback_message := fb }
          | _ => Except.ok d
        else
          Except.ok { d with state := State.WAITING
                             feedback_message :=
                               "delivery failed, waiting for human to teleop us back home before cancelling" }
    else
      Except.ok { d with state := State.IDLE, feedback_message := "idling" }
  | none => Except.ok { d with state := State.IDLE, feedback_message := "idling" }

/-- The `Waiting` gate behaviour: `go_requested` latch, the skip flag,
and the `py_trees` `status` the engine maintains on the behaviour. -/
structure Waiting where
  location : String
  dont_wait_for_hoomans : Bool
  go_requested : Bool
  status : Status
  feedback_message : String
deriving DecidableEq, Repr

/-- `Waiting.__init__`. -/
def Waiting.init (location : String) (dont_wait_for_hoomans_flag : Bool) : Waiting :=
  { location := location
    dont_wait_for_hoomans := dont_wait_for_hoomans_flag
    go_requested := false
    status := Status.INVALID
    feedback_message := "hanging around at \x27" ++ location ++ "\x27 waiting for lazy bastards" }

/-- `Waiting._go_button_callback`:
`self.go_requested = True if self.status == py_trees.Status.RUNNING else False`;
the notification publish carries no behaviour state. -/
def Waiting.go_button_callback (w : Waiting) : Waiting :=
  { w with go_requested := decide (w.status = Status.RUNNING) }

/-- `Waiting.update`: succeed when the skip flag is set, or when running
with the latch set; otherwise keep waiting (publishing a notification,
which carries no state).  Takes the blackboard `remaining_locations` it
reads for its feedback message. -/
def Waiting.update (w : Waiting) (remaining_locations : List String) :
    Status × Waiting :=
  let status := if w.dont_wait_for_hoomans then Status.SUCCESS else Status.RUNNING
  let status := if status = Status.RUNNING ∧ w.go_requested = true then Status.SUCCESS else status
  (status, { w with feedback_message := "remaining: " ++ toString remaining_locations })

/-- Modelled from the spec: `py_trees.OneshotSequence` is not under
src/ (delivery.py only constructs it).  Per the spec, once the sequence
reaches a final (success or failure) status it retains it and stops
re-evaluating its children; `retained` is that latched final status. -/
structure OneshotSeq where
  retained : Option Status
deriving DecidableEq, Repr

/-- Modelled from the spec: one tick of the oneshot sequence.
`child_run` evaluates the children for one cycle and yields the sequence
status that run produces; the returned `Bool` records whether the
children were (re-)evaluated on this tick.  With a retained final status
the children are not run and the retained status is returned verbatim. -/
def OneshotSeq.tick (s : OneshotSeq) (child_run : Unit → Status) :
    Status × OneshotSeq × Bool :=
  match s.retained with
  | some st => (st, s, false)
  | none =>
    let st := child_run ()
    match st with
    | Status.SUCCESS => (st, { retained := some st }, true)
    | Status.FAILURE => (st, { retained := some st }, true)
    | _ => (st, s, true)

/-- Iterate `OneshotSeq.tick` over a list of per-cycle child evaluations,
collecting each tick's returned status and children-executed flag. -/
def OneshotSeq.run (s : OneshotSeq) (runs : List (Unit → Status)) :
    List (Status × Bool) × OneshotSeq :=
  match runs with
  | [] => ([], s)
  | r :: rs =>
    let t := s.tick r
    let rest := t.2.1.run rs
    ((t.1, t.2.2) :: rest.1, rest.2)

/-- Modelled from the spec: the travel leaf (`moveit.MoveToGoal`, not
under src/) completes a leg by removing the head of
`remaining_locations` and appending it to `traversed_locations`. -/
def completeLeg : List String × List String → List String × List String
  | (t, []) => (t, [])
  | (t, l :: rest) => (t ++ [l], rest)

/-- `n` completed legs. -/
def legs : Nat → List String × List String → List String × List String
  | 0, p => p
  | n + 1, p => legs n (completeLeg p)

/-- Projection out of `Except` used to state theorems without binders. -/
def okOf {α : Type} : Except String α → Option α
  | Except.ok a => some a
  | Except.error _ => none

/-! ### Concrete fixtures used by counterexamples and witnesses -/

/-- A planner that rejects every location list and plans nothing. -/
def rejectingPlanner : Planner :=
  { check_locations := fun _ => false
    create_tree := fun _ _ _ _ => []
    current_location := none }

/-- A planner that accepts every location list and decomposes a goal into
one `goto` step per location. -/
def gotoPlanner : Planner :=
  { check_locations := fun _ => true
    create_tree := fun _ locations _ _ => locations.map (fun l => "goto " ++ l)
    current_location := none }

/-- A planner whose decomposition records the parking flag it was passed,
so the flag handed to `create_tree` is observable in the built tree. -/
def flagObservingPlanner : Planner :=
  { check_locations := fun _ => true
    create_tree := fun _ _ include_parking _ =>
      if include_parking then ["parking", "goto"] else ["goto"]
    current_location := none }

/-- A fresh delivery object whose planner rejects everything. -/
def dIdleInvalid : GopherDeliveries := GopherDeliveries.init rejectingPlanner none

/-- A delivery object in WAITING whose planner rejects everything. -/
def dWaitingInvalid : GopherDeliveries :=
  { GopherDeliveries.init rejectingPlanner none with state := State.WAITING }

/-- A delivery object in TRAVELLING. -/
def dTravelling : GopherDeliveries :=
  { GopherDeliveries.init rejectingPlanner none with state := State.TRAVELLING }

/-- A delivery object with no root but a non-IDLE latched state and stale
feedback, as left behind by earlier cycles. -/
def dRootless : GopherDeliveries :=
  { GopherDeliveries.init rejectingPlanner none with
      state := State.TRAVELLING
      feedback_message := "stale" }

/-- A delivery object whose root is running while the delivery sequence
is not: the recovery branch is the active one. -/
def dRecovery : GopherDeliveries :=
  { GopherDeliveries.init rejectingPlanner none with
      root := some { id := 0, delivery_children := ["goto"], status := Status.RUNNING }
      delivery_sequence := some { children := ["goto"], status := Status.FAILURE, current_child := none } }

/-- A delivery object assumed initialised, with no root and a pending
goal ready for decomposition by the flag-observing planner. -/
def dAssumedInitialised : GopherDeliveries :=
  { GopherDeliveries.init flagObservingPlanner none with
      always_assume_initialised := true
      incoming_goal := some ["L1"]
      doors := some [] }

/-- A mid-delivery object whose planner plans nothing, holding a pending
goal: fixture for the empty-decomposition case. -/
def dEmptyPlan : GopherDeliveries :=
  { GopherDeliveries.init rejectingPlanner none with
      state := State.WAITING
      root := some { id := 3, delivery_children := ["goto"], status := Status.RUNNING }
      incoming_goal := some ["L1"]
      doors := some [] }

/-- A delivery object mid-way through goal [L1, L2]: its tree is running
with the gate active (state WAITING), the first leg is traversed. -/
def dMidDelivery : GopherDeliveries :=
  { GopherDeliveries.init gotoPlanner none with
      root := some { id := 0, delivery_children := ["goto L1", "goto L2"], status := Status.RUNNING }
      delivery_sequence := some { children := ["goto L1", "goto L2"]
                                  status := Status.RUNNING
                                  current_child := some (ChildKind.waitingGate "fb") }
      state := State.WAITING
      locations := ["L1", "L2"]
      traversed_locations := ["L1"]
      remaining_locations := ["L2"]
      doors := some [] }

/-- A fresh delivery object with an accepted pending goal [L1, L2] and no
root yet. -/
def dFreshGoal : GopherDeliveries :=
  (set_goal (GopherDeliveries.init gotoPlanner none) (some ["L1", "L2"]) false []).2

/-- A one-location semantic preload. -/
def preloadLocations : List Location := [{ unique_name := "L1" }]

/-! ### C1: validation of locations before acceptance -/

/-- Claim C1 counterexample: in state WAITING, `set_goal` never consults
`planner.check_locations`; a list the planner rejects is accepted with
SUCCESS and overwrites the pending-goal slot, contradicting the claim
that in every accepting state (IDLE and WAITING) such a call is rejected
with the invalid-locations code and leaves the pending goal unchanged. -/
theorem C1_invalid_locations_counterexample :
    dWaitingInvalid.state = State.WAITING ∧
    dWaitingInvalid.planner.check_locations ["unknown_location"] = false ∧
    (set_goal dWaitingInvalid (some ["unknown_location"]) false []).1.1 = DeliveryErrorCodes.SUCCESS ∧
    (set_goal dWaitingInvalid (some ["unknown_location"]) false []).2.incoming_goal = some ["unknown_location"] ∧
    dWaitingInvalid.incoming_goal = none :=
  ⟨rfl, rfl, rfl, rfl, rfl⟩

/-- Claim C1 (amended): only in state IDLE is a nonempty location list
checked against the planner catalog; a failing check there is rejected
with the invalid-locations code (`FUBAR`, "Received invalid locations")
and leaves the object, in particular the pending-goal slot, unchanged.
In state WAITING the same call is accepted without validation and
replaces the pending goal. -/
theorem C1_invalid_locations_amended (d : GopherDeliveries) (l : String) (ls : List String)
    (aai : Bool) (drs : List String)
    (hcheck : d.planner.check_locations (l :: ls) = false) :
    (d.state = State.IDLE →
      set_goal d (some (l :: ls)) aai drs =
        ((DeliveryErrorCodes.FUBAR, "Received invalid locations"), d)) ∧
    (d.state = State.WAITING →
      (set_goal d (some (l :: ls)) aai drs).1.1 = DeliveryErrorCodes.SUCCESS ∧
      (set_goal d (some (l :: ls)) aai drs).2.incoming_goal = some (l :: ls)) := by
  constructor
  · intro hs
    simp [set_goal, hs, hcheck]
  · intro hs
    simp [set_goal, hs]

/-- Witness for C1 (amended) at a concrete rejected call in IDLE. -/
theorem C1_invalid_locations_amended_witness :
    set_goal dIdleInvalid (some ["unknown_location"]) false [] =
      ((DeliveryErrorCodes.FUBAR, "Received invalid locations"), dIdleInvalid) :=
  (C1_invalid_locations_amended dIdleInvalid "unknown_location" [] false [] rfl).1 rfl

/-! ### C2: the parking flag passed to the planner -/

/-- Claim C2 counterexample: with no root but `always_assume_initialised`
true, the claimed formula `(root = null) OR (not always_assume_initialised)`
is true, yet the flag actually passed to `planner.create_tree` is false:
the flag-observing planner would have produced a leading "parking" step
for a true flag, and the assembled tree has none. -/
theorem C2_parking_flag_counterexample :
    (dAssumedInitialised.root.isNone || !dAssumedInitialised.always_assume_initialised) = true ∧
    include_parking_behaviours dAssumedInitialised.always_assume_initialised dAssumedInitialised.root = false ∧
    (okOf (pre_tick_update dAssumedInitialised "world" 1)).map
        (fun p => p.1.root.map Root.delivery_children) = some (some ["goto"]) ∧
    dAssumedInitialised.planner.create_tree "world" ["L1"] true [] = ["parking", "goto"] :=
  ⟨rfl, rfl, rfl, rfl⟩

/-- Claim C2 (amended): the `include_parking_behaviours` flag that
`pre_tick_update` passes to `planner.create_tree` is true if and only if
no root currently exists AND the robot is not assumed initialised (the
conjunction, not the claimed disjunction). -/
theorem C2_parking_flag_amended (always_assume_initialised : Bool) (root : Option Root) :
    include_parking_behaviours always_assume_initialised root =
      (!always_assume_initialised && root.isNone) := by
  cases always_assume_initialised <;> cases root <;> rfl

/-! ### C3: classification when root is null or recovery is active -/

/-- Claim C3 counterexample: with a null root, `post_tock_update` sets
state IDLE and feedback "idling", not the claimed WAITING with a
recovery-in-progress message. -/
theorem C3_recovery_classification_counterexample :
    dRootless.root = none ∧
    (okOf (post_tock_update dRootless)).map GopherDeliveries.state = some State.IDLE ∧
    (okOf (post_tock_update dRootless)).map GopherDeliveries.feedback_message = some "idling" ∧
    State.IDLE ≠ State.WAITING :=
  ⟨rfl, rfl, rfl, by decide⟩

/-- Claim C3 (amended): when the root is running but the delivery
sequence is not (the recovery branch is the active one), the state
becomes WAITING with the recovery-in-progress feedback; when the root is
null the state becomes IDLE with feedback "idling" instead. -/
theorem C3_recovery_classification_amended (d : GopherDeliveries) :
    (d.root = none →
      post_tock_update d =
        Except.ok { d with state := State.IDLE, feedback_message := "idling" }) ∧
    (∀ r ds, d.root = some r → r.status = Status.RUNNING →
      d.delivery_sequence = some ds → ds.status ≠ Status.RUNNING →
      post_tock_update d =
        Except.ok { d with
          state := State.WAITING
          feedback_message :=
            "delivery failed, waiting for human to teleop us back home before cancelling" }) := by
  constructor
  · intro h
    simp [post_tock_update, h]
  · intro r ds hr hst hds hdss
    simp [post_tock_update, hr, hst, hds, hdss]

/-- Witness for C3 (amended) on a concrete recovery-active tree. -/
theorem C3_recovery_classification_amended_witness :
    post_tock_update dRecovery =
      Except.ok { dRecovery with
        state := State.WAITING
        feedback_message :=
          "delivery failed, waiting for human to teleop us back home before cancelling" } :=
  (C3_recovery_classification_amended dRecovery).2 _ _ rfl rfl rfl (by decide)

/-! ### C9: submission while TRAVELLING -/

/-- Claim C9 counterexample: an empty-list `set_goal` in TRAVELLING
returns `GOAL_EMPTY_NOTHING_TO_DO`, not the claimed
`ALREADY_ASSIGNED_A_GOAL` (the emptiness check runs first in any state). -/
theorem C9_travelling_reject_counterexample :
    dTravelling.state = State.TRAVELLING ∧
    (set_goal dTravelling (some []) false []).1.1 = DeliveryErrorCodes.GOAL_EMPTY_NOTHING_TO_DO ∧
    DeliveryErrorCodes.GOAL_EMPTY_NOTHING_TO_DO ≠ DeliveryErrorCodes.ALREADY_ASSIGNED_A_GOAL :=
  ⟨rfl, rfl, by decide⟩

/-- Claim C9 (amended): every `set_goal` call with a NONEMPTY location
list made while the state is TRAVELLING returns
`ALREADY_ASSIGNED_A_GOAL` and returns the object unchanged — in
particular the root (same identity), the pending-goal slot and the state
are untouched. -/
theorem C9_travelling_reject_amended (d : GopherDeliveries) (l : String) (ls : List String)
    (aai : Bool) (drs : List String) (hs : d.state = State.TRAVELLING) :
    set_goal d (some (l :: ls)) aai drs =
      ((DeliveryErrorCodes.ALREADY_ASSIGNED_A_GOAL, "sorry, busy (already assigned a goal)"), d) := by
  simp [set_goal, hs]

/-- Witness for C9 (amended) at a concrete call. -/
theorem C9_travelling_reject_amended_witness :
    set_goal dTravelling (some ["kitchen"]) false [] =
      ((DeliveryErrorCodes.ALREADY_ASSIGNED_A_GOAL, "sorry, busy (already assigned a goal)"), dTravelling) :=
  C9_travelling_reject_amended dTravelling "kitchen" [] false [] rfl

/-! ### C4: oneshot retention of the delivery sequence -/

/-- Claim C4: once the oneshot delivery sequence holds a retained final
status, any further sequence of ticks (cycles with no new goal, so the
root and its sequence persist) re-executes no children — every tick's
executed flag is false — and every tick returns the retained status
verbatim, with the sequence state unchanged, until the whole root is
discarded and replaced. -/
theorem C4_oneshot_retained (s : OneshotSeq) (st : Status)
    (h : s.retained = some st) (runs : List (Unit → Status)) :
    s.run runs = (runs.map (fun _ => (st, false)), s) := by
  induction runs with
  | nil => simp [OneshotSeq.run]
  | cons r rs ih => simp [OneshotSeq.run, OneshotSeq.tick, h, ih]

/-- Witness for C4 on a concrete retained-success sequence over two
further cycles of child evaluations that would otherwise fail. -/
theorem C4_oneshot_retained_witness :
    OneshotSeq.run { retained := some Status.SUCCESS }
        [fun _ => Status.FAILURE, fun _ => Status.RUNNING] =
      ([(Status.SUCCESS, false), (Status.SUCCESS, false)],
        { retained := some Status.SUCCESS }) :=
  C4_oneshot_retained { retained := some Status.SUCCESS } Status.SUCCESS rfl
    [fun _ => Status.FAILURE, fun _ => Status.RUNNING]

/-! ### C7: empty planner decomposition -/

/-- Claim C7: a `pre_tick_update` with a pending goal for which the
planner returns an empty decomposition logs the failure warning, returns
the object with only the pending-goal slot cleared — root, state,
delivery sequence and all other fields unchanged — and builds no tree. -/
theorem C7_empty_decomposition (d : GopherDeliveries) (current_world : String)
    (fresh_id : Nat) (l : String) (ls : List String) (drs : List String)
    (hin : d.incoming_goal = some (l :: ls))
    (hdoors : d.doors = some drs)
    (hplan : d.planner.create_tree current_world (l :: ls)
        (include_parking_behaviours d.always_assume_initialised d.root) drs = []) :
    pre_tick_update d current_world fresh_id =
      Except.ok ({ d with incoming_goal := none }, [emptyPlanWarning]) := by
  simp [pre_tick_update, hin, hdoors, hplan]

/-- Witness for C7 at a concrete call: the prior root and state survive
inside the returned record, only `incoming_goal` is cleared. -/
theorem C7_empty_decomposition_witness :
    pre_tick_update dEmptyPlan "world" 9 =
      Except.ok ({ dEmptyPlan with incoming_goal := none }, [emptyPlanWarning]) :=
  C7_empty_decomposition dEmptyPlan "world" 9 "L1" [] [] rfl rfl rfl

/-! ### C8: go-signal latch scoping of the Waiting gate -/

/-- Claim C8: a go signal delivered while the gate is not the active
(RUNNING) node sets `go_requested` to false, so when the gate next
becomes active its update keeps returning RUNNING rather than
succeeding; and for any gate, the callback leaves the latch true exactly
when the signal arrived while the gate was RUNNING. -/
theorem C8_gate_latch_scoped (w : Waiting) (remaining : List String)
    (hinactive : w.status ≠ Status.RUNNING)
    (hwait : w.dont_wait_for_hoomans = false) :
    w.go_button_callback.go_requested = false ∧
    (Waiting.update { w.go_button_callback with status := Status.RUNNING } remaining).1
      = Status.RUNNING ∧
    (∀ v : Waiting, v.go_button_callback.go_requested = true ↔ v.status = Status.RUNNING) := by
  refine ⟨?_, ?_, ?_⟩
  · simp [Waiting.go_button_callback, hinactive]
  · simp [Waiting.update, Waiting.go_button_callback, hinactive, hwait]
  · intro v
    simp [Waiting.go_button_callback]

/-- Witness for C8 on a freshly constructed (INVALID status) gate. -/
theorem C8_gate_latch_scoped_witness :
    (Waiting.init "table" false).go_button_callback.go_requested = false ∧
    (Waiting.update { (Waiting.init "table" false).go_button_callback with
        status := Status.RUNNING } []).1 = Status.RUNNING :=
  ⟨(C8_gate_latch_scoped (Waiting.init "table" false) [] (by decide) rfl).1,
   (C8_gate_latch_scoped (Waiting.init "table" false) [] (by decide) rfl).2.1⟩

/-! ### C5: preemption of a pending goal while WAITING -/

/-- Claim C5: a goal B submitted while the state is WAITING is accepted
and placed in the pending-goal slot, and the next `pre_tick_update`
(with a non-empty planner decomposition for B) assembles the new tree
solely from B: the delivery children are exactly the planner's
decomposition of B, `remaining_locations` and `locations` become exactly
B's list, and the pending slot is consumed. -/
theorem C5_preemption (d : GopherDeliveries) (b : String) (bs : List String)
    (aai : Bool) (drs : List String) (current_world : String) (fresh_id : Nat)
    (c : String) (cs : List String)
    (hstate : d.state = State.WAITING)
    (hplan : d.planner.create_tree current_world (b :: bs)
        (include_parking_behaviours aai d.root) drs = c :: cs) :
    (set_goal d (some (b :: bs)) aai drs).1.1 = DeliveryErrorCodes.SUCCESS ∧
    (set_goal d (some (b :: bs)) aai drs).2.incoming_goal = some (b :: bs) ∧
    (okOf (pre_tick_update (set_goal d (some (b :: bs)) aai drs).2 current_world fresh_id)).map
        (fun p => (p.1.remaining_locations, p.1.locations,
                   p.1.root.map Root.delivery_children, p.1.incoming_goal))
      = some ((b :: bs), (b :: bs), some (c :: cs), none) := by
  refine ⟨?_, ?_, ?_⟩
  · simp [set_goal, hstate]
  · simp [set_goal, hstate]
  · simp [set_goal, hstate, pre_tick_update, hplan, okOf]

/-- Witness for C5: preempting the mid-delivery fixture with goal [L3]
yields a tree built only from L3. -/
theorem C5_preemption_witness :
    (set_goal dMidDelivery (some ["L3"]) false []).1.1 = DeliveryErrorCodes.SUCCESS ∧
    (set_goal dMidDelivery (some ["L3"]) false []).2.incoming_goal = some ["L3"] ∧
    (okOf (pre_tick_update (set_goal dMidDelivery (some ["L3"]) false []).2 "world" 1)).map
        (fun p => (p.1.remaining_locations, p.1.locations,
                   p.1.root.map Root.delivery_children, p.1.incoming_goal))
      = some (["L3"], ["L3"], some ["goto L3"], none) :=
  C5_preemption dMidDelivery "L3" [] false [] "world" 1 "goto L3" [] rfl rfl

/-! ### C6: location bookkeeping invariant -/

/-- Completed legs only move elements across the pair: the concatenation
of traversed and remaining is invariant under `legs`. -/
theorem legs_append (n : Nat) (p : List String × List String) :
    (legs n p).1 ++ (legs n p).2 = p.1 ++ p.2 := by
  induction n generalizing p with
  | zero => rfl
  | succ n ih =>
    cases p with
    | mk t r =>
      cases r with
      | nil => simp [legs, completeLeg, ih]
      | cons l rest => simp [legs, completeLeg, ih]

/-- Claim C6 counterexample: preempting the mid-delivery fixture (goal
[L1, L2], first leg traversed) with goal [L3] assembles B's tree while
`traversed_locations` is NOT reset (a root exists), so immediately after
assembly the union of remaining and traversed is \x7bL1, L3\x7d, not the
original goal set \x7bL3\x7d. -/
theorem C6_bookkeeping_counterexample :
    (okOf (pre_tick_update (set_goal dMidDelivery (some ["L3"]) false []).2 "world" 1)).map
        (fun p => (p.1.traversed_locations, p.1.remaining_locations)) = some (["L1"], ["L3"]) ∧
    (["L1"] : List String).toFinset ∪ (["L3"] : List String).toFinset ≠
      (["L3"] : List String).toFinset := by
  refine ⟨rfl, ?_⟩
  decide

/-- Claim C6 (amended): for a goal assembled while NO root exists,
`traversed_locations` is reset to empty and `remaining_locations` becomes
the goal, and from that point each completed leg removes exactly the head
of remaining and appends that same element to traversed, so after any
number of completed legs the concatenation (hence the union of the two
sets, order preserved) is exactly the original goal.  When a root exists
at assembly (preemption), traversed is retained and the invariant can
fail. -/
theorem C6_bookkeeping_amended (d : GopherDeliveries) (current_world : String)
    (fresh_id : Nat) (l : String) (ls : List String) (drs : List String)
    (c : String) (cs : List String)
    (hroot : d.root = none)
    (hin : d.incoming_goal = some (l :: ls))
    (hdoors : d.doors = some drs)
    (hplan : d.planner.create_tree current_world (l :: ls)
        (include_parking_behaviours d.always_assume_initialised d.root) drs = c :: cs) :
    (okOf (pre_tick_update d current_world fresh_id)).map
        (fun p => (p.1.traversed_locations, p.1.remaining_locations)) = some ([], l :: ls) ∧
    (∀ t hd rest, completeLeg (t, hd :: rest) = (t ++ [hd], rest)) ∧
    (∀ n, (legs n ([], l :: ls)).1 ++ (legs n ([], l :: ls)).2 = l :: ls) ∧
    (∀ n, (legs n ([], l :: ls)).1.toFinset ∪ (legs n ([], l :: ls)).2.toFinset
      = (l :: ls).toFinset) := by
  refine ⟨?_, ?_, ?_, ?_⟩
  · rw [hroot] at hplan
    simp [pre_tick_update, hin, hdoors, hplan, hroot, okOf]
  · intro t hd rest
    rfl
  · intro n
    simpa using legs_append n ([], l :: ls)
  · intro n
    rw [← List.toFinset_append]
    simpa using congrArg List.toFinset (legs_append n ([], l :: ls))

/-- Witness for C6 (amended) on the fresh two-location goal. -/
theorem C6_bookkeeping_amended_witness :
    (okOf (pre_tick_update dFreshGoal "world" 1)).map
        (fun p => (p.1.traversed_locations, p.1.remaining_locations)) = some ([], ["L1", "L2"]) ∧
    (legs 1 ([], ["L1", "L2"])).1 ++ (legs 1 ([], ["L1", "L2"])).2 = ["L1", "L2"] :=
  ⟨(C6_bookkeeping_amended dFreshGoal "world" 1 "L1" ["L2"] [] "goto L1" ["goto L2"]
      rfl rfl rfl rfl).1,
   (C6_bookkeeping_amended dFreshGoal "world" 1 "L1" ["L2"] [] "goto L1" ["goto L2"]
      rfl rfl rfl rfl).2.2.1 1⟩

/-! ### C10: the doors attribute is only assigned on acceptance -/

/-- Claim C10: `__init__` leaves `doors` unassigned while a
`semantic_locations` preload does create a pending goal, so the first
`pre_tick_update` on a preloaded object fails with an AttributeError on
`doors`; a rejected `set_goal` never assigns `doors` (it returns the
object unchanged), and once `doors` has been assigned (as every accepted
`set_goal` does) `pre_tick_update` is error-free. -/
theorem C10_doors_attribute (planner : Planner) (loc : Location) (rest : List Location)
    (current_world : String) (fresh_id : Nat) :
    (GopherDeliveries.init planner (some (loc :: rest))).doors = none ∧
    (GopherDeliveries.init planner (some (loc :: rest))).incoming_goal
      = some ((loc :: rest).map Location.unique_name) ∧
    pre_tick_update (GopherDeliveries.init planner (some (loc :: rest))) current_world fresh_id
      = Except.error "AttributeError: GopherDeliveries instance has no attribute doors" ∧
    (∀ d : GopherDeliveries, ∀ drs, d.doors = some drs →
      ∀ w fid, (okOf (pre_tick_update d w fid)).isSome = true) ∧
    (∀ d locations aai drs, (set_goal d locations aai drs).1.1 ≠ DeliveryErrorCodes.SUCCESS →
      (set_goal d locations aai drs).2 = d) := by
  refine ⟨rfl, rfl, rfl, ?_, ?_⟩
  · intro d drs hd w fid
    match hin : d.incoming_goal with
    | none => simp [pre_tick_update, hin, okOf]
    | some [] => simp [pre_tick_update, hin, okOf]
    | some (l :: ls) =>
      cases hplan : d.planner.create_tree w (l :: ls)
          (include_parking_behaviours d.always_assume_initialised d.root) drs with
      | nil => simp [pre_tick_update, hin, hd, hplan, okOf]
      | cons c cs => simp [pre_tick_update, hin, hd, hplan, okOf]
  · intro d locations aai drs h
    match locations with
    | none => rfl
    | some [] => rfl
    | some (l :: ls) =>
      by_cases hidle : d.state = State.IDLE
      · by_cases hchk : d.planner.check_locations (l :: ls) = true
        · exact absurd (by simp [set_goal, hidle, hchk]) h
        · simp [set_goal, hidle, hchk]
      · by_cases hwait : d.state = State.WAITING
        · exact absurd (by simp [set_goal, hidle, hwait]) h
        · simp [set_goal, hidle, hwait]

/-- Witness for C10: the preloaded object fails its first pre-tick. -/
theorem C10_doors_attribute_witness :
    pre_tick_update (GopherDeliveries.init rejectingPlanner (some preloadLocations)) "world" 1
      = Except.error "AttributeError: GopherDeliveries instance has no attribute doors" :=
  (C10_doors_attribute rejectingPlanner { unique_name := "L1" } [] "world" 1).2.2.1

end Gopher
